import Mathlib

/-!
Verification development for the lambda-router routing core: the request and
response data model, CORS preflight interception, path-pattern matching, route
lookup, and the onion-style middleware chain.

The repository ships only `lib.rs` module declarations, its test suite, and an
example; the bodies of the `cors`, `error`, `matcher`, `middleware`, `request`,
`response` and `router` modules are not present. Every definition below is
therefore modelled from the specification, constrained by the behaviour the
in-repo tests demand. Header and parameter maps (Rust `HashMap<String, String>`)
are modelled as association lists whose `mapInsert` overwrites an existing key
(last write wins), matching hash-map insertion semantics observationally.
-/

/-- Modelled from the spec: a string-to-string map (Rust `HashMap`) lookup.
Returns the value stored at the key, if any. -/
def mapGet : List (String × String) → String → Option String
  | [], _ => none
  | p :: rest, k => if p.1 == k then some p.2 else mapGet rest k

/-- Modelled from the spec: hash-map insertion — overwrites the value if the
key is present (last write wins), otherwise adds the binding. -/
def mapInsert : List (String × String) → String → String → List (String × String)
  | [], k, v => [(k, v)]
  | p :: rest, k, v => if p.1 == k then (k, v) :: rest else p :: mapInsert rest k v

/-- Modelled from the spec: key membership in a string map. -/
def mapContains (m : List (String × String)) (k : String) : Bool :=
  (mapGet m k).isSome

/-- Modelled from the spec: `CorsConfig` — allowed origin, methods and headers,
plain value data with the documented defaults (origin `*`, methods covering the
supported verbs, a common header allowlist). -/
structure CorsConfig where
  allow_origin : String := "*"
  allow_methods : String := "GET, POST, PUT, DELETE, PATCH, OPTIONS"
  allow_headers : String := "Content-Type, Authorization"
deriving DecidableEq, Repr

/-- Modelled from the spec: `Response` — integer status code, header map,
body string (assumed already serialized). -/
structure Response where
  status_code : Nat
  headers : List (String × String)
  body : String
deriving DecidableEq, Repr

/-- Modelled from the spec: default headers every constructed response starts
with — a JSON content type and the default CORS allow-origin header, so normal
cross-origin calls succeed without opting in. -/
def defaultHeaders : List (String × String) :=
  [("Content-Type", "application/json"), ("Access-Control-Allow-Origin", "*")]

/-- Modelled from the spec: `Response::new(status)` — fresh response with the
given status, default headers, empty body. -/
def Response.new (status : Nat) : Response :=
  { status_code := status, headers := defaultHeaders, body := "" }

/-- Modelled from the spec: the `\x7b "error": message \x7d`-shaped body used by
message-based constructors. -/
def errorBody (msg : String) : String :=
  "\x7b\"error\":\"" ++ msg ++ "\"\x7d"

/-- Modelled from the spec: `Response::ok(value)` — 200 with the serialized body. -/
def Response.ok (body : String) : Response :=
  { Response.new 200 with body := body }

/-- Modelled from the spec: `Response::created(value)` — 201. -/
def Response.created (body : String) : Response :=
  { Response.new 201 with body := body }

/-- Modelled from the spec: `Response::no_content()` — 204 with empty body. -/
def Response.no_content : Response :=
  Response.new 204

/-- Modelled from the spec: `Response::bad_request(message)` — 400 with
error-shaped body. -/
def Response.bad_request (msg : String) : Response :=
  { Response.new 400 with body := errorBody msg }

/-- Modelled from the spec: `Response::unauthorized(message)` — 401. -/
def Response.unauthorized (msg : String) : Response :=
  { Response.new 401 with body := errorBody msg }

/-- Modelled from the spec: `Response::forbidden(message)` — 403. -/
def Response.forbidden (msg : String) : Response :=
  { Response.new 403 with body := errorBody msg }

/-- Modelled from the spec: `Response::not_found(message)` — 404. -/
def Response.not_found (msg : String) : Response :=
  { Response.new 404 with body := errorBody msg }

/-- Modelled from the spec: `Response::internal_error(message)` — 500. -/
def Response.internal_error (msg : String) : Response :=
  { Response.new 500 with body := errorBody msg }

/-- Modelled from the spec: `text(body)` — sets an arbitrary body and a
plain-text content type, overriding the default JSON content type. -/
def Response.text (r : Response) (body : String) : Response :=
  { r with body := body, headers := mapInsert r.headers "Content-Type" "text/plain" }

/-- Modelled from the spec: `header(name, value)` — returns an updated response
with the header set or overwritten (last write wins). -/
def Response.header (r : Response) (name value : String) : Response :=
  { r with headers := mapInsert r.headers name value }

/-- Modelled from the spec: `Response::cors_preflight` — status 200 carrying
only the three CORS headers taken from the configuration, empty body. -/
def Response.cors_preflight (cfg : CorsConfig) : Response :=
  { status_code := 200
    headers :=
      [("Access-Control-Allow-Origin", cfg.allow_origin),
       ("Access-Control-Allow-Methods", cfg.allow_methods),
       ("Access-Control-Allow-Headers", cfg.allow_headers)]
    body := "" }

/-- Modelled from the spec: `Request` — method, raw path, header map,
query-parameter map, optional raw body, path-parameter map populated by the
matching route, and the request id extracted from the event. -/
structure Request where
  method : String
  path : String
  headers : List (String × String)
  query_params : List (String × String)
  body : Option String
  path_params : List (String × String)
  request_id : String
deriving DecidableEq, Repr

/-- Modelled from the spec and `test_request_is_preflight`: preflight detection
looks only at the HTTP method. -/
def Request.is_preflight (r : Request) : Bool :=
  r.method == "OPTIONS"

/-- Modelled from the spec: `Context` — request id, optional authenticated
identity, and an open-ended extension map (values modelled as strings). -/
structure Context where
  request_id : String
  user_id : Option String := none
  email : Option String := none
  custom : List (String × String) := []

/-- Modelled from the spec: `Context::new(request_id)`. -/
def Context.new (id : String) : Context :=
  { request_id := id }

/-- Modelled from the spec: the error taxonomy `BadRequest`, `Unauthorized`,
`Forbidden`, `NotFound`, `Internal`. -/
inductive RouterError where
  | badRequest (msg : String)
  | unauthorized (msg : String)
  | forbidden (msg : String)
  | notFound (msg : String)
  | internal (msg : String)
deriving DecidableEq, Repr

/-- Modelled from the spec: the dispatch boundary converts a propagated error
into the corresponding status-coded response using the same body shape as the
named constructors. -/
def errorToResponse : RouterError → Response
  | .badRequest m => Response.bad_request m
  | .unauthorized m => Response.unauthorized m
  | .forbidden m => Response.forbidden m
  | .notFound m => Response.not_found m
  | .internal m => Response.internal_error m

/-- Modelled from the spec: a pattern segment — literal text or a named
parameter. -/
inductive Segment where
  | literal (s : String)
  | param (name : String)
deriving DecidableEq, Repr

/-- Modelled from the spec: splitting on the path separator, keeping empty
segments (Rust `str::split('/')`): auxiliary walk over the characters. -/
def splitChars : List Char → List Char → List String
  | [], acc => [String.mk acc.reverse]
  | c :: cs, acc =>
      if c == '/' then String.mk acc.reverse :: splitChars cs []
      else splitChars cs (c :: acc)

/-- Modelled from the spec: split a path or pattern string on `/`, keeping
empty segments, so `/api/users/` and `/api/users` have different segment
lists. -/
def splitOnSlash (s : String) : List String :=
  splitChars s.data []

/-- Modelled from the spec: compile one pattern piece — a leading `:` marker
introduces a named parameter, anything else is a literal. -/
def compileSeg (s : String) : Segment :=
  match s.data with
  | ':' :: rest => Segment.param (String.mk rest)
  | _ => Segment.literal s

/-- Modelled from the spec: `PathMatcher` — the original pattern string plus
its compiled segments. -/
structure PathMatcher where
  pattern : String
  segments : List Segment
deriving DecidableEq, Repr

/-- Modelled from the spec: `PathMatcher::new(pattern)` — compile once at
registration time. -/
def PathMatcher.new (pattern : String) : PathMatcher :=
  { pattern := pattern, segments := (splitOnSlash pattern).map compileSeg }

/-- Modelled from the spec: walk pattern segments and candidate segments
pairwise — a literal must equal the candidate exactly (case-sensitive); a
parameter matches any non-empty candidate and binds its name; differing
lengths fail. -/
def matchSegs : List Segment → List String → List (String × String) →
    Option (List (String × String))
  | [], [], acc => some acc
  | Segment.literal l :: ps, c :: cs, acc =>
      if l == c then matchSegs ps cs acc else none
  | Segment.param n :: ps, c :: cs, acc =>
      if c == "" then none else matchSegs ps cs (mapInsert acc n c)
  | _, _, _ => none

/-- Modelled from the spec: `matches(path)` — split the candidate path and
walk it against the compiled segments, returning the parameter map on a full
match. -/
def PathMatcher.matches (m : PathMatcher) (path : String) :
    Option (List (String × String)) :=
  matchSegs m.segments (splitOnSlash path) []

/-- Modelled from the spec: a handler takes the request and the context and
either produces a response or signals a tagged error. -/
def Handler : Type :=
  Request → Context → Except RouterError Response

/-- Modelled from the spec: the behaviours a middleware may exhibit per
dispatch — short-circuit with a response without calling `next`, signal an
error without calling `next`, or transform the request, call `next` once, and
post-process a successful response (pass-through is `wrap id id`; on an error
from `next` the `?`-style propagation skips the post-processing). -/
inductive Mw where
  | reject (resp : Response)
  | failWith (e : RouterError)
  | wrap (pre : Request → Request) (post : Response → Response)

/-- Modelled from the spec: a continuation representing the rest of the chain.
It threads an execution trace (a log of the components that actually ran) so
that temporal claims about what executes are statable. -/
def NextFn : Type :=
  Request → List String → Except RouterError Response × List String

/-- Modelled from the spec: interpretation of one middleware around the rest
of the chain, logging each execution step under the middleware's name. -/
def runMw (name : String) (m : Mw) (next : NextFn) : NextFn :=
  fun req t =>
    match m with
    | .reject resp => (Except.ok resp, t ++ [name ++ ":short"])
    | .failWith e => (Except.error e, t ++ [name ++ ":err"])
    | .wrap pre post =>
        match next (pre req) (t ++ [name ++ ":pre"]) with
        | (Except.ok resp, t2) => (Except.ok (post resp), t2 ++ [name ++ ":post"])
        | (Except.error e, t2) => (Except.error e, t2)

/-- Modelled from the spec: fold the named middleware list right-to-left into
one composed continuation; the first-registered middleware is outermost. -/
def runChain : List (String × Mw) → NextFn → NextFn
  | [], inner => inner
  | (n, m) :: rest, inner => runMw n m (runChain rest inner)

/-- Modelled from the spec: the innermost continuation invokes the effective
handler with the request and the context, logging that the handler ran. -/
def handlerNext (h : Handler) (ctx : Context) : NextFn :=
  fun req t => (h req ctx, t ++ ["handler"])

/-- Modelled from the spec: a registered route — method, compiled pattern,
handler reference. -/
structure Route where
  method : String
  matcher : PathMatcher
  handler : Handler

/-- Modelled from the spec: the built-in not-found fallback — a 404 with the
error-shaped body. -/
def defaultNotFound : Handler :=
  fun _ _ => Except.ok (Response.not_found "Not Found")

/-- Modelled from the spec: `Router` — ordered route table, ordered global
middleware list (with names for the execution trace), not-found handler, CORS
configuration. -/
structure Router where
  routes : List Route
  middleware : List (String × Mw)
  not_found : Handler
  cors : CorsConfig

/-- Modelled from the spec: `Router::new()` — empty tables, built-in 404
fallback, default CORS configuration. -/
def Router.new : Router :=
  { routes := [], middleware := [], not_found := defaultNotFound, cors := {} }

/-- Modelled from the spec: scan the route table in registration order; the
first route whose method equals the request's method and whose pattern matches
the path wins, yielding its extracted parameters. -/
def findRoute : List Route → Request → Option (Route × List (String × String))
  | [], _ => none
  | r :: rs, req =>
      if r.method == req.method then
        match r.matcher.matches req.path with
        | some ps => some (r, ps)
        | none => findRoute rs req
      else findRoute rs req

/-- Modelled from the spec: run the full middleware chain around the effective
handler, converting any propagated error into the corresponding status-coded
response at this single boundary. -/
def runHandlerChain (mws : List (String × Mw)) (h : Handler) (req : Request) :
    Response × List String :=
  match runChain mws (handlerNext h (Context.new req.request_id)) req [] with
  | (Except.ok resp, t) => (resp, t)
  | (Except.error e, t) => (errorToResponse e, t)

/-- Modelled from the spec: `dispatch(request)` with its execution trace —
preflight short-circuit first (no route matching, no middleware, empty trace),
otherwise first-match route lookup, path-parameter population, and the
middleware chain around the matched handler or the not-found fallback. -/
def Router.dispatchT (r : Router) (req : Request) : Response × List String :=
  if req.is_preflight then (Response.cors_preflight r.cors, [])
  else
    match findRoute r.routes req with
    | some (route, ps) =>
        runHandlerChain r.middleware route.handler { req with path_params := ps }
    | none => runHandlerChain r.middleware r.not_found req

/-- Modelled from the spec: `dispatch(request) -> Response` — the response
component of the instrumented dispatch. -/
def Router.dispatch (r : Router) (req : Request) : Response :=
  (r.dispatchT req).1

/-- Description of a pure wrapping middleware by its name, its pre-`next`
request transformation and its post-`next` response transformation. -/
structure WrapSpec where
  name : String
  pre : Request → Request
  post : Response → Response

/-- The named middleware list described by a list of wrap specifications. -/
def wrapChain (ws : List WrapSpec) : List (String × Mw) :=
  ws.map (fun w => (w.name, Mw.wrap w.pre w.post))

/-- All pre-`next` transformations applied in registration order. -/
def applyPres (ws : List WrapSpec) (req : Request) : Request :=
  ws.foldl (fun r w => w.pre r) req

/-- All post-`next` transformations applied in reverse registration order
(innermost middleware first). -/
def applyPosts (ws : List WrapSpec) (resp : Response) : Response :=
  ws.foldr (fun w r => w.post r) resp

/-- The pre-phase trace events, in registration order. -/
def preTrace (ws : List WrapSpec) : List String :=
  ws.map (fun w => w.name ++ ":pre")

/-- The post-phase trace events, in reverse registration order. -/
def postTrace (ws : List WrapSpec) : List String :=
  (ws.map (fun w => w.name ++ ":post")).reverse

/-- Per-segment matching semantics: a literal segment accepts exactly the
textually identical candidate, a parameter segment accepts any non-empty
candidate. -/
def Segment.matchSeg : Segment → String → Bool
  | .literal l, c => l == c
  | .param _, c => !(c == "")

/-- A plain request for tests: the given method and path, empty header map,
no query parameters, no body, no path parameters. -/
def mkReq (m p : String) : Request :=
  { method := m, path := p, headers := [], query_params := [], body := none,
    path_params := [], request_id := "test-request-id" }

/-- A handler that echoes the request headers into the response, making
visible exactly which request the handler observed. -/
def echoHandler : Handler := fun req _ =>
  Except.ok { Response.new 200 with headers := req.headers, body := "echo" }

/-- The two wrapping middleware of the onion example: M1 sets response header
`X-A` after calling next, M2 sets request header `X-B` before calling next. -/
def wsOnion : List WrapSpec :=
  [ { name := "M1", pre := id, post := fun resp => resp.header "X-A" "a1" },
    { name := "M2", pre := fun req => { req with headers := mapInsert req.headers "X-B" "b2" },
      post := id } ]

/-- Router fixture for the onion example: one `GET /r` route with the echo
handler behind middleware `[M1, M2]`. -/
def routerOnion : Router :=
  { routes := [ { method := "GET", matcher := PathMatcher.new "/r", handler := echoHandler } ],
    middleware := wrapChain wsOnion, not_found := defaultNotFound, cors := {} }

/-- Router fixture for the short-circuit example: an auth middleware that
returns 401 without calling next, in front of an inner middleware and a
routed handler that would otherwise run. -/
def routerAuth : Router :=
  { routes := [ { method := "GET", matcher := PathMatcher.new "/r", handler := echoHandler } ],
    middleware := [("auth", Mw.reject (Response.unauthorized "no token")),
                   ("inner", Mw.wrap id (fun resp => resp.header "X-Inner" "1"))],
    not_found := defaultNotFound, cors := {} }

/-- First handler of the duplicate-registration example. -/
def handlerA : Handler := fun _ _ => Except.ok (Response.ok "h1-body")

/-- Second handler of the duplicate-registration example. -/
def handlerB : Handler := fun _ _ => Except.ok (Response.ok "h2-body")

/-- First-registered `GET /r` route. -/
def routeA : Route :=
  { method := "GET", matcher := PathMatcher.new "/r", handler := handlerA }

/-- Identically-registered later `GET /r` route. -/
def routeB : Route :=
  { method := "GET", matcher := PathMatcher.new "/r", handler := handlerB }

/-- A `GET /r` request. -/
def reqGetR : Request := mkReq "GET" "/r"

theorem mapGet_mapInsert_self (m : List (String × String)) (k v : String) :
    mapGet (mapInsert m k v) k = some v := by
  induction m with
  | nil => simp [mapInsert, mapGet]
  | cons p rest ih =>
      cases hpk : p.1 == k with
      | true => simp [mapInsert, mapGet, hpk]
      | false => simp [mapInsert, mapGet, hpk, ih]

theorem mapGet_mapInsert_ne (m : List (String × String)) (k v k' : String) (h : k' ≠ k) :
    mapGet (mapInsert m k v) k' = mapGet m k' := by
  induction m with
  | nil => simp [mapInsert, mapGet, beq_iff_eq, Ne.symm h]
  | cons p rest ih =>
      cases hpk : p.1 == k with
      | true =>
          have hp : p.1 = k := by simpa [beq_iff_eq] using hpk
          simp [mapInsert, mapGet, hpk, hp, beq_iff_eq, Ne.symm h]
      | false => simp [mapInsert, mapGet, hpk, ih]

theorem matchSegs_isSome_iff (ps : List Segment) (cs : List String)
    (acc : List (String × String)) :
    (matchSegs ps cs acc).isSome = true
      ↔ List.Forall₂ (fun s c => Segment.matchSeg s c = true) ps cs := by
  induction ps generalizing cs acc with
  | nil => cases cs <;> simp [matchSegs]
  | cons s ps ih =>
      cases cs with
      | nil => cases s <;> simp [matchSegs]
      | cons c cs =>
          cases s with
          | literal l =>
              cases hlc : l == c with
              | true => simp [matchSegs, hlc, ih, List.forall₂_cons, Segment.matchSeg]
              | false => simp [matchSegs, hlc, List.forall₂_cons, Segment.matchSeg]
          | param n =>
              cases hc : c == "" with
              | true => simp [matchSegs, hc, List.forall₂_cons, Segment.matchSeg]
              | false => simp [matchSegs, hc, ih, List.forall₂_cons, Segment.matchSeg]

theorem findRoute_first (rs1 : List Route) (r : Route) (rs2 : List Route) (req : Request)
    (ps : List (String × String))
    (h1 : ∀ r' ∈ rs1, r'.method = req.method → r'.matcher.matches req.path = none)
    (h2 : r.method = req.method)
    (h3 : r.matcher.matches req.path = some ps) :
    findRoute (rs1 ++ r :: rs2) req = some (r, ps) := by
  induction rs1 with
  | nil => simp [findRoute, beq_iff_eq, h2, h3]
  | cons r' rs1 ih =>
      have htail : ∀ x ∈ rs1, x.method = req.method → x.matcher.matches req.path = none :=
        fun x hx hmx => h1 x (by simp [hx]) hmx
      cases hm : r'.method == req.method with
      | true =>
          have hme : r'.method = req.method := by simpa [beq_iff_eq] using hm
          have hnone := h1 r' (by simp) hme
          simp [findRoute, hm, hnone, ih htail]
      | false => simp [findRoute, hm, ih htail]

theorem runChain_reject_indep (pre : List (String × Mw)) (n : String) (resp : Response)
    (post post' : List (String × Mw)) (h h' : NextFn) (req : Request) (t : List String) :
    runChain (pre ++ (n, Mw.reject resp) :: post) h req t
      = runChain (pre ++ (n, Mw.reject resp) :: post') h' req t := by
  induction pre generalizing req t with
  | nil => simp [runChain, runMw]
  | cons p rest ih =>
      cases p with
      | mk pn pm =>
          cases pm with
          | reject r0 => simp [runChain, runMw]
          | failWith e => simp [runChain, runMw]
          | wrap f g =>
              simp only [List.cons_append, runChain, runMw, List.append_eq]
              rw [ih]

theorem runChain_wrap_onion (ws : List WrapSpec) (hf : Request → Response) (ctx : Context)
    (req : Request) (t : List String) :
    runChain (wrapChain ws) (handlerNext (fun q _ => Except.ok (hf q)) ctx) req t
      = (Except.ok (applyPosts ws (hf (applyPres ws req))),
         t ++ preTrace ws ++ ["handler"] ++ postTrace ws) := by
  induction ws generalizing req t with
  | nil => simp [wrapChain, runChain, handlerNext, applyPres, applyPosts, preTrace, postTrace]
  | cons w rest ih =>
      have hstep : wrapChain (w :: rest) = (w.name, Mw.wrap w.pre w.post) :: wrapChain rest := rfl
      rw [hstep]
      simp only [runChain, runMw]
      rw [ih]
      simp [applyPres, applyPosts, preTrace, postTrace, List.append_assoc]

/-- C1: for every request whose method is OPTIONS, regardless of the path and
of the registered routes and middleware, dispatch returns a response with
status 200 carrying the configured Access-Control-Allow-Origin,
Access-Control-Allow-Methods and Access-Control-Allow-Headers headers, and
neither route matching nor any middleware runs (the execution trace is empty
and the result does not depend on the route table or the middleware list). -/
theorem dispatch_options_preflight (r : Router) (req : Request)
    (h : req.method = "OPTIONS") :
    r.dispatchT req = (Response.cors_preflight r.cors, [])
    ∧ (Response.cors_preflight r.cors).status_code = 200
    ∧ mapGet (Response.cors_preflight r.cors).headers "Access-Control-Allow-Origin"
        = some r.cors.allow_origin
    ∧ mapGet (Response.cors_preflight r.cors).headers "Access-Control-Allow-Methods"
        = some r.cors.allow_methods
    ∧ mapGet (Response.cors_preflight r.cors).headers "Access-Control-Allow-Headers"
        = some r.cors.allow_headers := by
  refine ⟨?_, rfl, rfl, rfl, rfl⟩
  simp [Router.dispatchT, Request.is_preflight, h]

/-- C1 witness: an OPTIONS request against a router whose only route is
`GET /r` and whose middleware would reject everything still short-circuits to
the preflight response with an empty execution trace. -/
theorem dispatch_options_preflight_witness :
    (mkReq "OPTIONS" "/api/users").method = "OPTIONS"
    ∧ routerAuth.dispatchT (mkReq "OPTIONS" "/api/users")
        = (Response.cors_preflight routerAuth.cors, []) :=
  ⟨rfl, (dispatch_options_preflight routerAuth (mkReq "OPTIONS" "/api/users") rfl).1⟩

/-- C2: for every non-preflight request with no matching route, dispatch
still returns the not-found handler's response passed through the full
middleware chain; any error the chain propagates is converted at the dispatch
boundary into the corresponding status-coded response (`Internal` becomes
500), and with the default not-found handler and no middleware the result is
the built-in 404 with an error-shaped body — dispatch always yields a
response value. -/
theorem dispatch_no_route_total (r : Router) (req : Request)
    (h1 : req.is_preflight = false)
    (h2 : findRoute r.routes req = none) :
    r.dispatchT req = runHandlerChain r.middleware r.not_found req
    ∧ (∀ e t, runChain r.middleware (handlerNext r.not_found (Context.new req.request_id)) req []
          = (Except.error e, t) → r.dispatchT req = (errorToResponse e, t))
    ∧ (∀ m, (errorToResponse (RouterError.internal m)).status_code = 500)
    ∧ (r.not_found = defaultNotFound → r.middleware = [] →
        r.dispatchT req = (Response.not_found "Not Found", ["handler"])) := by
  have hd : r.dispatchT req = runHandlerChain r.middleware r.not_found req := by
    simp [Router.dispatchT, h1, h2]
  refine ⟨hd, ?_, fun m => rfl, ?_⟩
  · intro e t he
    rw [hd]
    simp [runHandlerChain, he]
  · intro hnf hmw
    rw [hd, hnf, hmw]
    rfl

/-- C2 witness: dispatching `GET /nope` on a fresh router (no routes, no
middleware, default fallback) produces the built-in 404 response, with only
the effective handler in the trace. -/
theorem dispatch_no_route_total_witness :
    (mkReq "GET" "/nope").is_preflight = false
    ∧ findRoute Router.new.routes (mkReq "GET" "/nope") = none
    ∧ Router.new.dispatchT (mkReq "GET" "/nope")
        = (Response.not_found "Not Found", ["handler"]) :=
  ⟨rfl, rfl, (dispatch_no_route_total Router.new (mkReq "GET" "/nope") rfl rfl).2.2.2 rfl rfl⟩

/-- C3: the middleware chain is an onion — for every list of wrapping
middleware the pre-next transformations apply in registration order before
the handler, the post-next transformations apply in reverse registration
order after it, and the trace records exactly that order; in the concrete
`[M1, M2]` example (M1 adds response header X-A after next, M2 adds request
header X-B before next, echo handler) the final response carries both
headers while the request the handler observes carries M2's X-B but not
M1's X-A. -/
theorem middleware_onion_order :
    (∀ (ws : List WrapSpec) (hf : Request → Response) (ctx : Context)
       (req : Request) (t : List String),
      runChain (wrapChain ws) (handlerNext (fun q _ => Except.ok (hf q)) ctx) req t
        = (Except.ok (applyPosts ws (hf (applyPres ws req))),
           t ++ preTrace ws ++ ["handler"] ++ postTrace ws))
    ∧ routerOnion.dispatchT reqGetR
        = ({ status_code := 200, headers := [("X-B", "b2"), ("X-A", "a1")], body := "echo" },
           ["M1:pre", "M2:pre", "handler", "M2:post", "M1:post"])
    ∧ mapGet (routerOnion.dispatch reqGetR).headers "X-A" = some "a1"
    ∧ mapGet (routerOnion.dispatch reqGetR).headers "X-B" = some "b2"
    ∧ (applyPres wsOnion reqGetR).headers = [("X-B", "b2")]
    ∧ mapGet (applyPres wsOnion reqGetR).headers "X-A" = none :=
  ⟨runChain_wrap_onion, by decide, by decide, by decide, by decide, by decide⟩

/-- C4: a middleware that returns a response without invoking its next
continuation makes everything registered after it, and the handler, dead for
that dispatch: the whole result (response and execution trace) is unchanged
under arbitrary replacement of the later middleware and of the inner
continuation; concretely, an auth middleware rejecting with 401 yields that
401 with a trace showing that neither the inner middleware nor the handler
ran. -/
theorem middleware_short_circuit :
    (∀ (pre : List (String × Mw)) (n : String) (resp : Response)
       (post post' : List (String × Mw)) (h h' : NextFn) (req : Request) (t : List String),
      runChain (pre ++ (n, Mw.reject resp) :: post) h req t
        = runChain (pre ++ (n, Mw.reject resp) :: post') h' req t)
    ∧ routerAuth.dispatchT reqGetR = (Response.unauthorized "no token", ["auth:short"]) :=
  ⟨runChain_reject_indep, by decide⟩

/-- C5: route lookup is first-match-wins in registration order — if every
route registered before `r` fails to match (wrong method or non-matching
pattern) and `r` matches with parameters `ps`, dispatch runs exactly `r`'s
handler through the middleware chain with the extracted parameters; routes
registered after `r` (including identical re-registrations) do not appear in
the result. -/
theorem dispatch_first_match_wins (rs1 rs2 : List Route) (r : Route) (req : Request)
    (ps : List (String × String)) (mws : List (String × Mw)) (nf : Handler)
    (cfg : CorsConfig)
    (h0 : req.is_preflight = false)
    (h1 : ∀ r' ∈ rs1, r'.method = req.method → r'.matcher.matches req.path = none)
    (h2 : r.method = req.method)
    (h3 : r.matcher.matches req.path = some ps) :
    Router.dispatchT ⟨rs1 ++ r :: rs2, mws, nf, cfg⟩ req
      = runHandlerChain mws r.handler { req with path_params := ps } := by
  have hf := findRoute_first rs1 r rs2 req ps h1 h2 h3
  simp [Router.dispatchT, h0, hf]

/-- C5 witness: with routes `[GET /r -> handlerA, GET /r -> handlerB]`
registered in that order, dispatching `GET /r` runs handlerA and produces
its body, never handlerB's. -/
theorem dispatch_first_match_wins_witness :
    reqGetR.is_preflight = false
    ∧ routeA.matcher.matches reqGetR.path = some []
    ∧ Router.dispatchT ⟨[routeA, routeB], [], defaultNotFound, {}⟩ reqGetR
        = runHandlerChain [] routeA.handler { reqGetR with path_params := [] }
    ∧ Router.dispatch ⟨[routeA, routeB], [], defaultNotFound, {}⟩ reqGetR
        = Response.ok "h1-body" := by
  refine ⟨rfl, by decide, ?_, by decide⟩
  exact dispatch_first_match_wins [] [routeB] routeA reqGetR [] [] defaultNotFound {}
    rfl (by simp) rfl (by decide)

/-- C6: per-segment matching semantics — a full match holds exactly when the
segments correspond pointwise, a literal accepting only the textually
identical candidate (case-sensitive) and a parameter accepting any non-empty
candidate; consequently `/api/users/:userId` matches `/api/users/abc-123`
binding `userId` to `abc-123`, while `/api/users`, the empty-final-segment
path `/api/users/`, and the differently-cased `/API/users` against
`/api/users` all fail. -/
theorem segment_matching_semantics :
    (∀ (ps : List Segment) (cs : List String) (acc : List (String × String)),
      (matchSegs ps cs acc).isSome = true
        ↔ List.Forall₂ (fun s c => Segment.matchSeg s c = true) ps cs)
    ∧ (∀ l c, Segment.matchSeg (Segment.literal l) c = true ↔ l = c)
    ∧ (∀ n c, Segment.matchSeg (Segment.param n) c = true ↔ c ≠ "")
    ∧ (PathMatcher.new "/api/users/:userId").matches "/api/users/abc-123"
        = some [("userId", "abc-123")]
    ∧ (PathMatcher.new "/api/users/:userId").matches "/api/users" = none
    ∧ (PathMatcher.new "/api/users/:userId").matches "/api/users/" = none
    ∧ (PathMatcher.new "/api/users").matches "/API/users" = none :=
  ⟨matchSegs_isSome_iff,
   fun l c => by simp [Segment.matchSeg],
   fun n c => by simp [Segment.matchSeg],
   by decide, by decide, by decide, by decide⟩

/-- C7: a compiled pattern never matches a path whose segment count differs
from the pattern's — there is no prefix, suffix or variable-length matching. -/
theorem segment_count_mismatch_no_match (pattern path : String)
    (h : (splitOnSlash pattern).length ≠ (splitOnSlash path).length) :
    (PathMatcher.new pattern).matches path = none := by
  cases hm : (PathMatcher.new pattern).matches path with
  | none => rfl
  | some ps =>
      exfalso
      have hs : (matchSegs (PathMatcher.new pattern).segments (splitOnSlash path) []).isSome
          = true := by
        have : (PathMatcher.new pattern).matches path = some ps := hm
        simpa [PathMatcher.matches] using congrArg Option.isSome this
      have hfa := (matchSegs_isSome_iff _ _ _).mp hs
      have hlen := List.Forall₂.length_eq hfa
      exact h (by simpa [PathMatcher.new, List.length_map] using hlen)

/-- C7 witness: `/api/users` (three segments) against `/api/users/extra`
(four segments) does not match. -/
theorem segment_count_mismatch_no_match_witness :
    (splitOnSlash "/api/users").length ≠ (splitOnSlash "/api/users/extra").length
    ∧ (PathMatcher.new "/api/users").matches "/api/users/extra" = none :=
  ⟨by decide, segment_count_mismatch_no_match "/api/users" "/api/users/extra" (by decide)⟩

/-- C8: `header(name, value)` preserves the status code and the body, sets
the named header to the given value (overwriting an existing value — last
write wins), and leaves every other header unchanged. -/
theorem header_preserves_status_body (resp : Response) (name value : String) :
    (resp.header name value).status_code = resp.status_code
    ∧ (resp.header name value).body = resp.body
    ∧ mapGet (resp.header name value).headers name = some value
    ∧ (∀ k, k ≠ name → mapGet (resp.header name value).headers k = mapGet resp.headers k) :=
  ⟨rfl, rfl, mapGet_mapInsert_self _ _ _, fun _ hk => mapGet_mapInsert_ne _ _ _ _ hk⟩

/-- C8 witness: adding `X-Custom-Header` to a 200 response keeps status and
the other headers; overwriting the existing `Content-Type` header replaces
its value (last write wins). -/
theorem header_preserves_status_body_witness :
    ((Response.ok "x").header "X-Custom-Header" "custom-value").status_code = 200
    ∧ mapGet ((Response.ok "x").header "X-Custom-Header" "custom-value").headers
        "X-Custom-Header" = some "custom-value"
    ∧ ("Content-Type" : String) ≠ "X-Custom-Header"
    ∧ mapGet ((Response.ok "x").header "X-Custom-Header" "custom-value").headers
        "Content-Type" = mapGet (Response.ok "x").headers "Content-Type"
    ∧ mapGet ((Response.ok "x").header "Content-Type" "text/html").headers
        "Content-Type" = some "text/html" := by
  have h := header_preserves_status_body (Response.ok "x") "X-Custom-Header" "custom-value"
  have h2 := header_preserves_status_body (Response.ok "x") "Content-Type" "text/html"
  exact ⟨h.1.trans rfl, h.2.2.1, by decide, h.2.2.2 "Content-Type" (by decide), h2.2.2.1⟩

/-- C9: every response produced by the named constructors (including the
generic `new`) carries the default CORS Access-Control-Allow-Origin header. -/
theorem constructors_carry_allow_origin (b m : String) (n : Nat) :
    mapGet (Response.new n).headers "Access-Control-Allow-Origin" = some "*"
    ∧ mapGet (Response.ok b).headers "Access-Control-Allow-Origin" = some "*"
    ∧ mapGet (Response.created b).headers "Access-Control-Allow-Origin" = some "*"
    ∧ mapGet Response.no_content.headers "Access-Control-Allow-Origin" = some "*"
    ∧ mapGet (Response.bad_request m).headers "Access-Control-Allow-Origin" = some "*"
    ∧ mapGet (Response.unauthorized m).headers "Access-Control-Allow-Origin" = some "*"
    ∧ mapGet (Response.forbidden m).headers "Access-Control-Allow-Origin" = some "*"
    ∧ mapGet (Response.not_found m).headers "Access-Control-Allow-Origin" = some "*"
    ∧ mapGet (Response.internal_error m).headers "Access-Control-Allow-Origin" = some "*" :=
  ⟨rfl, rfl, rfl, rfl, rfl, rfl, rfl, rfl, rfl⟩

/-- C10: preflight detection depends only on the HTTP method — for any
combination of path, headers (including an empty header map), query
parameters, body and ids, `is_preflight` holds exactly when the method is
OPTIONS; in particular the mock OPTIONS request with no Origin or
Access-Control-Request-Method header is a preflight and the same GET request
is not. -/
theorem is_preflight_method_only (method path rid : String)
    (hs qs pp : List (String × String)) (b : Option String) :
    ((Request.mk method path hs qs b pp rid).is_preflight = true ↔ method = "OPTIONS")
    ∧ (mkReq "OPTIONS" "/api/users").headers = []
    ∧ (mkReq "OPTIONS" "/api/users").is_preflight = true
    ∧ (mkReq "GET" "/api/users").is_preflight = false :=
  ⟨by simp [Request.is_preflight], rfl, rfl, rfl⟩
